import Mathlib

/-!
# Verification of the dialogue state machine in `src/backend/app.py`

This file shallowly embeds the chat-turn handler `handle_chat`
(`src/backend/app.py`, lines 241-385) of the conversational slot-filling
assistant, together with the data it manipulates, and proves properties of
the embedded code.

External collaborators (the Gemini LLM, the JSON parser applied to LLM
text, the embedding service) are modelled by an `Oracle` record carrying
the outcome of each call site: `none` models a collaborator failure (the
gateway `generate_gemini_content` returns `None` on any exception,
app.py lines 205-218) and `some` a successful trimmed response.  The
MongoDB thread document and intents collection are modelled as explicit
state threaded through the turn function.
-/

namespace ZonyApp

/-- A JSON-ish slot value: the specified `string | number | enum-string`
(enum values are strings).  Numbers are modelled as integers. -/
inductive SlotValue where
  | str (s : String)
  | num (n : Int)
  | boolean (b : Bool)
deriving DecidableEq, Repr

/-- One slot of a dynamic schema (app.py schema-inference prompt, lines
77-84): `{name, type, required, options}`.  `ty` stands for the JSON key
`type` (a Lean keyword). -/
structure Slot where
  name : String
  ty : String
  required : Bool
  options : List String
deriving DecidableEq, Repr

/-- The dynamically inferred intent schema (app.py lines 77-84). -/
structure Schema where
  intentName : String
  displayName : String
  description : String
  slots : List Slot
deriving DecidableEq, Repr

/-- Thread status, stored as a string in Mongo: `"GATHERING"`,
`"AWAITING_CONFIRMATION"`, `"COMPLETED"` (app.py lines 256, 270-272). -/
inductive Status where
  | GATHERING
  | AWAITING_CONFIRMATION
  | COMPLETED
deriving DecidableEq, Repr

/-- One chat message `{role, content}` (app.py line 261, 382). -/
structure Message where
  role : String
  content : String
deriving DecidableEq, Repr

/-- The persisted thread document (app.py line 256: `threadId`, `userId`,
`messages`, `dynamic_schema`, `filled_slots`, `status`).  `filled_slots`
is a JSON object, modelled as an association list. -/
structure Thread where
  threadId : String
  userId : String
  messages : List Message
  dynamic_schema : Option Schema
  filled_slots : List (String × SlotValue)
  status : Status
deriving DecidableEq, Repr

/-- A persisted intent record (app.py lines 286-293).  The Python dict
`intent = {**dynamic_schema, **{"filledSlots": filled_slots}}` is the
schema fields merged with the filled slots, modelled as the two fields
`schema` and `filledSlots`.  The fresh `intentId` (uuid) and `createdAt`
(wall-clock timestamp) are nondeterministic identifiers irrelevant to
the verified properties and are omitted. -/
structure Intent where
  threadId : String
  userId : String
  schema : Option Schema
  filledSlots : List (String × SlotValue)
  vector_embedding : Option (List Int)
deriving DecidableEq, Repr

/-- The kind of each collaborator call the turn may issue, in program
order, used to state "no LLM call happens" properties. -/
inductive CallKind where
  | analysisCall      -- confirmation-analysis prompt (line 273-274)
  | schemaGenCall     -- dynamic-schema-inference prompt (line 336-337)
  | extractionCall    -- slot-extraction prompt (line 350-351)
  | guidanceCall      -- next-question-guidance prompt (line 361-362)
  | confirmationCall  -- confirmation-summary prompt (line 366-367)
  | fallbackCall      -- schemaless free chat completion (line 372)
  | embedCall         -- embedding request (line 302-306)
deriving DecidableEq, Repr

/-- Outcomes of the collaborator calls a single turn may make.  A `none`
response models the gateway returning `None` (collaborator failure) or,
for `schemaParse` / `extractionParse`, a JSON parse failure of the
corresponding response text. -/
structure Oracle where
  /-- Response of the confirmation-analysis prompt (line 274). -/
  analysisResponse : Option String
  /-- Raw text of the schema-inference response (line 337). -/
  schemaGenResponse : Option String
  /-- Result of `json.loads` on the (fence-stripped) schema text
  (line 340): `none` models a parse failure or a non-object result. -/
  schemaParse : Option Schema
  /-- Raw text of the slot-extraction response (line 351). -/
  extractionResponse : Option String
  /-- Parsed `filledSlots` object of the extraction text (lines 355-357):
  `none` models a parse failure or a missing `filledSlots` key. -/
  extractionParse : Option (List (String × SlotValue))
  /-- Response of the next-question-guidance prompt (line 362). -/
  guidanceResponse : Option String
  /-- Response of the confirmation-summary prompt (line 367). -/
  confirmationResponse : Option String
  /-- Response of the schemaless free-chat completion (line 372). -/
  fallbackResponse : Option String
  /-- Result of `genai.embed_content` (lines 302-307): `none` models the
  call raising, which is caught and logged (lines 308-309). -/
  embeddingResponse : Option (List Int)
deriving DecidableEq, Repr

/-- Helper: `startsWithChars p c` decides whether `p` is an initial segment of
`c` (character-level helper for the Python substring operator `in`). -/
def startsWithChars : List Char → List Char → Bool
  | [], _ => true
  | _ :: _, [] => false
  | p :: ps, c :: cs => p == c && startsWithChars ps cs

/-- Helper: `hasSubChars pat cs` decides whether `pat` occurs contiguously in
`cs`. -/
def hasSubChars (pat : List Char) : List Char → Bool
  | [] => pat.isEmpty
  | c :: cs => startsWithChars pat (c :: cs) || hasSubChars pat cs

/-- the Python substring test `pat in hay` for a non-empty `pat`
(app.py line 364: `"ALL_SLOTS_FILLED" in next_step_response`). -/
def strContains (hay pat : String) : Bool :=
  hasSubChars pat.data hay.data

/-- the Python `str.capitalize()` method (app.py line 282): first character
uppercased, every remaining character lowercased. -/
def pyCapitalize (s : String) : String :=
  match s.data with
  | [] => ""
  | c :: cs => String.mk (c.toUpper :: cs.map Char.toLower)

/-- The slot-normalization loop of app.py lines 280-282: every
string-valued slot is passed through `str.capitalize()`, every other
value is left unchanged. -/
def capitalizeSlots (slots : List (String × SlotValue)) : List (String × SlotValue) :=
  slots.map fun kv =>
    match kv.2 with
    | SlotValue.str s => (kv.1, SlotValue.str (pyCapitalize s))
    | _ => kv

/-- Fixed reply for a completed thread (app.py line 271). -/
def alreadyFinalizedMsg : String :=
  "It looks like we\x27ve already finalized your request. If you\x27d like to start a new one, just let me know!"

/-- Fixed success reply on confirmation (app.py line 323). -/
def successMsg : String :=
  "Perfect! I\x27ve posted your request on your behalf."

/-- Interim acknowledgement on correction (app.py line 331). -/
def correctionAckMsg : String :=
  "Understood. Thanks for the correction. Let me re-evaluate based on your changes. One moment..."

/-- Fixed clarification request for a schema with no required slots
(app.py line 348). -/
def clarificationMsg : String :=
  "That\x27s an interesting request. To make sure I understand correctly, could you tell me a bit more about what you\x27d like to accomplish?"

/-- Generic fallback apology (app.py line 380). -/
def apologyMsg : String :=
  "I\x27m sorry, I\x27m having trouble processing that request. Could you try rephrasing?"

/-- The mutable turn-local state after the COMPLETED / AWAITING
branches (app.py lines 270-331) and through the GATHERING block:
`ai_response` is the Python `ai_response_content` (with `""` also
standing for the Python falsy value `None`); `dyn` is the local variable
`dynamic_schema`; `dbSchema` / `dbSlots` / `dbStatus` are the values
currently persisted in the thread document; `intents` is the intents
collection; `emitted` the `new_intent` socket broadcasts of this turn;
`calls` the collaborator calls issued so far; `logged` whether an
embedding-failure error was logged (line 309). -/
structure Stage where
  ai_response : String
  dyn : Option Schema
  dbSchema : Option Schema
  dbSlots : List (String × SlotValue)
  dbStatus : Status
  intents : List Intent
  emitted : List Intent
  calls : List CallKind
  logged : Bool
deriving DecidableEq, Repr

/-- app.py lines 270-271: a COMPLETED thread short-circuits with a fixed
reply; nothing else changes and no collaborator is called. -/
def completedStage (t : Thread) (ints : List Intent) : Stage :=
  { ai_response := alreadyFinalizedMsg
    dyn := t.dynamic_schema
    dbSchema := t.dynamic_schema
    dbSlots := t.filled_slots
    dbStatus := Status.COMPLETED
    intents := ints
    emitted := []
    calls := []
    logged := false }

/-- The intent record built by the CONFIRMED branch for thread `t`
(app.py lines 286-293 and 307): `new_intent` with capitalized slots and
the embedding vector when the embedding call succeeded, `None` when it
raised. -/
def newIntentOf (o : Oracle) (t : Thread) : Intent :=
  { threadId := t.threadId
    userId := t.userId
    schema := t.dynamic_schema
    filledSlots := capitalizeSlots t.filled_slots
    vector_embedding := o.embeddingResponse }

/-- app.py lines 276-324, the `user_decision == "CONFIRMED"` branch:
capitalize string slots (lines 280-282), then — only if no intent for
this `threadId` exists yet (line 285) — build the intent, attempt the
embedding (vector stays `None` and the failure is logged if it raises,
lines 292-309), insert it and broadcast it (lines 311-321).  In either
case the reply is the fixed success message and the persisted status is
set to COMPLETED (lines 323-324).  The own fields of the thread document, namely
`dynamic_schema` / `filled_slots` fields are not written on this path
(the capitalization mutates only the in-memory copy; line 383 persists
only `messages`). -/
def confirmedBranch (o : Oracle) (t : Thread) (ints : List Intent) : Stage :=
  if (ints.find? fun it => it.threadId == t.threadId).isNone then
    { ai_response := successMsg
      dyn := t.dynamic_schema
      dbSchema := t.dynamic_schema
      dbSlots := t.filled_slots
      dbStatus := Status.COMPLETED
      intents := ints ++ [newIntentOf o t]
      emitted := [newIntentOf o t]
      calls := [CallKind.analysisCall, CallKind.embedCall]
      logged := (o.embeddingResponse).isNone }
  else
    { ai_response := successMsg
      dyn := t.dynamic_schema
      dbSchema := t.dynamic_schema
      dbSlots := t.filled_slots
      dbStatus := Status.COMPLETED
      intents := ints
      emitted := []
      calls := [CallKind.analysisCall]
      logged := false }

/-- app.py lines 325-331, the CORRECTION branch (any analysis result
other than the exact string `CONFIRMED`, including a gateway failure):
persist `status = "GATHERING"`, `dynamic_schema = None`,
`filled_slots = {}`; clear the local `dynamic_schema`; reply with the
interim acknowledgement. -/
def correctionBranch (ints : List Intent) : Stage :=
  { ai_response := correctionAckMsg
    dyn := none
    dbSchema := none
    dbSlots := []
    dbStatus := Status.GATHERING
    intents := ints
    emitted := []
    calls := [CallKind.analysisCall]
    logged := false }

/-- The no-op stage for a thread that enters the turn in GATHERING:
the first `if/elif` chain (lines 270-331) does not fire. -/
def gatheringEntry (t : Thread) (ints : List Intent) : Stage :=
  { ai_response := ""
    dyn := t.dynamic_schema
    dbSchema := t.dynamic_schema
    dbSlots := t.filled_slots
    dbStatus := Status.GATHERING
    intents := ints
    emitted := []
    calls := []
    logged := false }

/-- app.py lines 270-331: dispatch on the status of the thread at the start
of the turn. -/
def stage1 (o : Oracle) (t : Thread) (ints : List Intent) : Stage :=
  match t.status with
  | Status.COMPLETED => completedStage t ints
  | Status.AWAITING_CONFIRMATION =>
    if o.analysisResponse = some "CONFIRMED" then confirmedBranch o t ints
    else correctionBranch ints
  | Status.GATHERING => gatheringEntry t ints

/-- app.py lines 335-343: if the local `dynamic_schema` is falsy, call
the schema-inference prompt; if the response is truthy and not
`"UNCLEAR"`, try to parse it; on success persist the schema, on parse
failure only print (nothing persisted, schema stays `None`). -/
def schemaGenStep (o : Oracle) (s : Stage) : Stage :=
  match s.dyn with
  | some _ => s
  | none =>
    let s := { s with calls := s.calls ++ [CallKind.schemaGenCall] }
    match o.schemaGenResponse with
    | none => s
    | some txt =>
      if txt != "" && txt != "UNCLEAR" then
        match o.schemaParse with
        | some sch => { s with dyn := some sch, dbSchema := some sch }
        | none => s
      else s

/-- app.py lines 350-359: the slot-extraction call.  On a truthy
response whose parse yields a `filledSlots` object, the snapshot is
persisted wholesale; otherwise the stored snapshot is untouched.  The
turn-local extracted slots feed only prompt text afterwards and are
not otherwise observable. -/
def extractionStep (o : Oracle) (s : Stage) : Stage :=
  let s := { s with calls := s.calls ++ [CallKind.extractionCall] }
  match o.extractionResponse with
  | none => s
  | some txt =>
    if txt != "" then
      match o.extractionParse with
      | some fs => { s with dbSlots := fs }
      | none => s
    else s

/-- app.py lines 361-369: the next-question-guidance call.  A truthy
response containing `ALL_SLOTS_FILLED` as a substring persists
`status = "AWAITING_CONFIRMATION"` and makes the confirmation-summary
output the reply (lines 364-367); otherwise the guidance response
itself (empty on gateway failure) becomes the reply (lines 368-369). -/
def guidanceStep (o : Oracle) (s : Stage) : Stage :=
  let s := { s with calls := s.calls ++ [CallKind.guidanceCall] }
  match o.guidanceResponse with
  | some g =>
    if g != "" && strContains g "ALL_SLOTS_FILLED" then
      { s with dbStatus := Status.AWAITING_CONFIRMATION
               calls := s.calls ++ [CallKind.confirmationCall]
               ai_response := (o.confirmationResponse).getD "" }
    else { s with ai_response := g }
  | none => { s with ai_response := "" }

/-- app.py lines 345-372: the part of the GATHERING block after schema
inference.  With a truthy schema: if no slot is required, reply with
the fixed clarification (lines 346-348); otherwise run extraction then
guidance.  With no schema, the reply is the schemaless free-chat
completion (lines 371-372). -/
def gatheringTail (o : Oracle) (s : Stage) : Stage :=
  match s.dyn with
  | some sch =>
    if sch.slots.any (fun sl => sl.required) then
      guidanceStep o (extractionStep o s)
    else
      { s with ai_response := clarificationMsg }
  | none =>
    { s with ai_response := (o.fallbackResponse).getD ""
             calls := s.calls ++ [CallKind.fallbackCall] }

/-- app.py lines 334-372, the whole GATHERING block body (the code
under `if thread_status == "GATHERING":`): schema inference if needed,
then the rest. -/
def gatheringBlock (o : Oracle) (s : Stage) : Stage :=
  gatheringTail o (schemaGenStep o s)

/-- The outcome of one chat turn: the persisted thread document, the
intents collection, the broadcasts, the HTTP reply, the collaborator
calls made, and whether an embedding failure was logged. -/
structure TurnResult where
  thread : Thread
  intents : List Intent
  emitted : List Intent
  reply : String
  calls : List CallKind
  logged : Bool
deriving DecidableEq, Repr

/-- app.py lines 241-385, `handle_chat`, for a request with all three
required fields present, acting on the thread document `t` fetched (or
upserted) at line 254 and the intents collection `ints`.

Faithful to the source control flow: the user message is appended
(line 261); the status branches run (lines 270-331); the GATHERING
block is guarded by `if thread_status == "GATHERING"` where
`thread_status` is the local variable read at line 266 — the status at
the START of the turn, not the value just persisted by the CORRECTION
branch (line 334); a falsy reply is replaced by the generic apology
(lines 379-380); the final reply is appended and the messages persisted
unconditionally (lines 382-383). -/
def handle_chat (o : Oracle) (msg : String) (t : Thread) (ints : List Intent) :
    TurnResult :=
  let messages1 := t.messages ++ [{ role := "user", content := msg }]
  let thread_status := t.status
  let s1 := stage1 o t ints
  let s2 := if thread_status = Status.GATHERING then gatheringBlock o s1 else s1
  let reply := if s2.ai_response = "" then apologyMsg else s2.ai_response
  { thread :=
      { threadId := t.threadId
        userId := t.userId
        messages := messages1 ++ [{ role := "model", content := reply }]
        dynamic_schema := s2.dbSchema
        filled_slots := s2.dbSlots
        status := s2.dbStatus }
    intents := s2.intents
    emitted := s2.emitted
    reply := reply
    calls := s2.calls
    logged := s2.logged }

/-- A sequence of turns on one thread: each element is the oracle and
user message of one turn. -/
def runTurns : List (Oracle × String) → Thread → List Intent → Thread × List Intent
  | [], t, ints => (t, ints)
  | (o, m) :: rest, t, ints =>
    let r := handle_chat o m t ints
    runTurns rest r.thread r.intents

/-- Number of intent records stored for a given `threadId`. -/
def countIntents (tid : String) (ints : List Intent) : Nat :=
  (ints.filter fun it => it.threadId == tid).length

/-- The status edges the specification allows: self-loops,
GATHERING → AWAITING_CONFIRMATION, AWAITING_CONFIRMATION → COMPLETED,
and the sole backward edge AWAITING_CONFIRMATION → GATHERING. -/
def allowedTransition (a b : Status) : Prop :=
  a = b ∨
  (a = Status.GATHERING ∧ b = Status.AWAITING_CONFIRMATION) ∨
  (a = Status.AWAITING_CONFIRMATION ∧ b = Status.COMPLETED) ∨
  (a = Status.AWAITING_CONFIRMATION ∧ b = Status.GATHERING)

instance (a b : Status) : Decidable (allowedTransition a b) := by
  unfold allowedTransition
  infer_instance

/-- The transform described by the spec words for slot normalization:
"capitalize first letter" — uppercase the first character, leave the
remaining characters unchanged.  Stated for comparison with the
`pyCapitalize` from the source. -/
def capitalizeFirstLetterSpec (s : String) : String :=
  match s.data with
  | [] => ""
  | c :: cs => String.mk (c.toUpper :: cs)

/-! ## Concrete instances used by witnesses and counterexamples -/

/-- An oracle in which every collaborator call fails. -/
def oAllNone : Oracle :=
  { analysisResponse := none
    schemaGenResponse := none
    schemaParse := none
    extractionResponse := none
    extractionParse := none
    guidanceResponse := none
    confirmationResponse := none
    fallbackResponse := none
    embeddingResponse := none }

/-- A small concrete schema with one required slot. -/
def schemaCity : Schema :=
  { intentName := "FindCity_v1"
    displayName := "Find City"
    description := "User wants to find a city."
    slots := [{ name := "city", ty := "string", required := true, options := [] }] }

/-- A concrete schema whose slots are all optional. -/
def schemaOptional : Schema :=
  { intentName := "VagueGoal_v1"
    displayName := "Vague Goal"
    description := "User wants something unspecified."
    slots := [{ name := "detail", ty := "string", required := false, options := [] }] }

/-- A concrete thread awaiting confirmation with one filled slot. -/
def tAwait : Thread :=
  { threadId := "t1"
    userId := "alice"
    messages := [{ role := "user", content := "find me a hotel in london" }]
    dynamic_schema := some schemaCity
    filled_slots := [("city", SlotValue.str "london")]
    status := Status.AWAITING_CONFIRMATION }

/-- A concrete thread in GATHERING that already has the one-required-slot
schema. -/
def tGather : Thread :=
  { threadId := "t2"
    userId := "bob"
    messages := [{ role := "user", content := "sell my bike" }]
    dynamic_schema := some schemaCity
    filled_slots := []
    status := Status.GATHERING }

/-- A concrete thread in GATHERING whose schema has no required slot. -/
def tGatherOptional : Thread :=
  { threadId := "t3"
    userId := "carol"
    messages := []
    dynamic_schema := some schemaOptional
    filled_slots := []
    status := Status.GATHERING }

/-- A concrete completed thread. -/
def tDone : Thread :=
  { threadId := "t4"
    userId := "dave"
    messages := []
    dynamic_schema := some schemaCity
    filled_slots := [("city", SlotValue.str "Paris")]
    status := Status.COMPLETED }

/-- A concrete fresh thread: GATHERING, no schema yet. -/
def tFresh : Thread :=
  { threadId := "t0"
    userId := "zoe"
    messages := []
    dynamic_schema := none
    filled_slots := []
    status := Status.GATHERING }

/-- An oracle for the correction scenario of C1: the analysis classifies
the message as `CORRECTION`, and every collaborator a same-turn
GATHERING pass would need is available and succeeds — so any absence of
gathering activity is due to control flow, not collaborator failure. -/
def oCorrectionReady : Oracle :=
  { analysisResponse := some "CORRECTION"
    schemaGenResponse := some "a json schema object"
    schemaParse := some schemaCity
    extractionResponse := some "a json filledSlots object"
    extractionParse := some [("city", SlotValue.str "berlin")]
    guidanceResponse := some "Which city should it be instead?"
    confirmationResponse := some "Here is the corrected summary. OK?"
    fallbackResponse := some "Happy to help!"
    embeddingResponse := some [1, 2, 3] }

/-- An oracle that confirms; every other collaborator fails (in
particular the embedding call). -/
def oConfirm : Oracle :=
  { oAllNone with analysisResponse := some "CONFIRMED" }

/-- An oracle that confirms and whose embedding call succeeds. -/
def oConfirmEmbed : Oracle :=
  { oAllNone with
    analysisResponse := some "CONFIRMED"
    embeddingResponse := some [1, 2, 3] }

/-- An oracle for the C5 counterexample: guidance returns the bare
completion marker, but the confirmation-summary call fails. -/
def oMarkerNoSummary : Oracle :=
  { oAllNone with guidanceResponse := some "ALL_SLOTS_FILLED" }

/-- An oracle for the C5 witness: guidance returns the marker inside
surrounding text and the confirmation summary succeeds. -/
def oMarkerSummary : Oracle :=
  { oAllNone with
    guidanceResponse := some "Great news: ALL_SLOTS_FILLED indeed."
    confirmationResponse := some "Here is what I have. Is that correct?" }

/-- A pre-existing intent record for thread `t1`, used to exercise the
idempotence skip path. -/
def intentExisting : Intent :=
  { threadId := "t1"
    userId := "alice"
    schema := some schemaCity
    filledSlots := [("city", SlotValue.str "London")]
    vector_embedding := none }

/-- A thread awaiting confirmation whose slot value has mixed case,
used for the C6 counterexample. -/
def tMixedCase : Thread :=
  { threadId := "t6"
    userId := "erin"
    messages := []
    dynamic_schema := some schemaCity
    filled_slots := [("city", SlotValue.str "NEW york")]
    status := Status.AWAITING_CONFIRMATION }

/-- A thread awaiting confirmation with the lowercase slot value of the
spec scenario. -/
def tParis : Thread :=
  { threadId := "t7"
    userId := "frank"
    messages := []
    dynamic_schema := some schemaCity
    filled_slots := [("city", SlotValue.str "paris")]
    status := Status.AWAITING_CONFIRMATION }

end ZonyApp

namespace ZonyApp

/-! ## Theorems -/

/-- The schema-inference step never touches the persisted status. -/
theorem schemaGenStep_dbStatus (o : Oracle) (s : Stage) :
    (schemaGenStep o s).dbStatus = s.dbStatus := by
  unfold schemaGenStep
  cases hd : s.dyn <;> cases hg : o.schemaGenResponse <;> simp
  case none.some txt =>
    cases hp : o.schemaParse <;> split <;> simp

/-- The extraction step changes only the persisted slot snapshot and
the call list. -/
theorem extractionStep_fields (o : Oracle) (s : Stage) :
    (extractionStep o s).dbStatus = s.dbStatus ∧
    (extractionStep o s).dyn = s.dyn ∧
    (extractionStep o s).dbSchema = s.dbSchema ∧
    (extractionStep o s).intents = s.intents ∧
    (extractionStep o s).emitted = s.emitted ∧
    (extractionStep o s).logged = s.logged ∧
    (extractionStep o s).ai_response = s.ai_response := by
  simp only [extractionStep]
  split <;> try exact ⟨rfl, rfl, rfl, rfl, rfl, rfl, rfl⟩
  split <;> try exact ⟨rfl, rfl, rfl, rfl, rfl, rfl, rfl⟩
  split <;> exact ⟨rfl, rfl, rfl, rfl, rfl, rfl, rfl⟩

/-- The guidance step either leaves the persisted status unchanged or
advances it to AWAITING_CONFIRMATION. -/
theorem guidanceStep_dbStatus (o : Oracle) (s : Stage) :
    (guidanceStep o s).dbStatus = s.dbStatus ∨
    (guidanceStep o s).dbStatus = Status.AWAITING_CONFIRMATION := by
  simp only [guidanceStep]
  split <;> try exact Or.inl rfl
  split
  · exact Or.inr rfl
  · exact Or.inl rfl

/-- The post-inference part of the GATHERING block either leaves the
persisted status unchanged or advances it to AWAITING_CONFIRMATION. -/
theorem gatheringTail_dbStatus (o : Oracle) (s : Stage) :
    (gatheringTail o s).dbStatus = s.dbStatus ∨
    (gatheringTail o s).dbStatus = Status.AWAITING_CONFIRMATION := by
  obtain ⟨ai, dyn, dbS, dbSl, dbSt, its, em, cs, lg⟩ := s
  cases dyn with
  | none => exact Or.inl rfl
  | some sch =>
    simp only [gatheringTail]
    split
    · rcases guidanceStep_dbStatus o
        (extractionStep o ⟨ai, some sch, dbS, dbSl, dbSt, its, em, cs, lg⟩)
        with h | h
      · exact Or.inl (h.trans (extractionStep_fields o _).1)
      · exact Or.inr h
    · exact Or.inl rfl

/-- The GATHERING block either leaves the persisted status unchanged or
advances it to AWAITING_CONFIRMATION. -/
theorem gatheringBlock_dbStatus (o : Oracle) (s : Stage) :
    (gatheringBlock o s).dbStatus = s.dbStatus ∨
    (gatheringBlock o s).dbStatus = Status.AWAITING_CONFIRMATION := by
  rcases gatheringTail_dbStatus o (schemaGenStep o s) with h | h
  · exact Or.inl (h.trans (schemaGenStep_dbStatus o s))
  · exact Or.inr h

/-- The CONFIRMED branch always sets the persisted status to
COMPLETED. -/
theorem confirmedBranch_dbStatus (o : Oracle) (t : Thread) (ints : List Intent) :
    (confirmedBranch o t ints).dbStatus = Status.COMPLETED := by
  unfold confirmedBranch
  split <;> simp

/-- A turn on a COMPLETED thread makes no collaborator call, replies
with the fixed "already finalized" message, and leaves the status
COMPLETED. -/
theorem handle_chat_completed (o : Oracle) (msg : String) (t : Thread)
    (ints : List Intent) (h : t.status = Status.COMPLETED) :
    (handle_chat o msg t ints).thread.status = Status.COMPLETED ∧
    (handle_chat o msg t ints).calls = [] ∧
    (handle_chat o msg t ints).reply = alreadyFinalizedMsg ∧
    (handle_chat o msg t ints).intents = ints := by
  obtain ⟨tid, uid, msgs, ds, fs, st⟩ := t
  simp only at h
  subst h
  simp [handle_chat, stage1, completedStage]
  decide

/-- Once a thread is COMPLETED, no sequence of further turns changes its
status. -/
theorem runTurns_completed (turns : List (Oracle × String)) (t : Thread)
    (ints : List Intent) (h : t.status = Status.COMPLETED) :
    (runTurns turns t ints).1.status = Status.COMPLETED := by
  induction turns generalizing t ints with
  | nil => exact h
  | cons p rest ih =>
    obtain ⟨o, m⟩ := p
    exact ih _ _ (handle_chat_completed o m t ints h).1

/-- C2 — Each turn moves the status only along
GATHERING → AWAITING_CONFIRMATION → COMPLETED, with
AWAITING_CONFIRMATION → GATHERING as the sole backward edge; a COMPLETED
thread makes no collaborator call, gets the fixed "already finalized"
reply, and stays COMPLETED under every further sequence of turns. -/
theorem C2_status_transitions (o : Oracle) (msg : String) (t : Thread)
    (ints : List Intent) :
    allowedTransition t.status (handle_chat o msg t ints).thread.status ∧
    (t.status = Status.COMPLETED →
      (handle_chat o msg t ints).calls = [] ∧
      (handle_chat o msg t ints).reply = alreadyFinalizedMsg ∧
      ∀ turns : List (Oracle × String),
        (runTurns turns t ints).1.status = Status.COMPLETED) := by
  constructor
  · obtain ⟨tid, uid, msgs, ds, fs, st⟩ := t
    cases st with
    | GATHERING =>
      have hblk := gatheringBlock_dbStatus o
        (gatheringEntry ⟨tid, uid, msgs, ds, fs, Status.GATHERING⟩ ints)
      simp only [handle_chat, stage1, allowedTransition]
      simp only [gatheringEntry] at hblk ⊢
      rcases hblk with h | h <;> simp [h]
    | AWAITING_CONFIRMATION =>
      by_cases hdec : o.analysisResponse = some "CONFIRMED"
      · simp [handle_chat, stage1, allowedTransition, if_pos hdec,
          confirmedBranch_dbStatus]
      · simp [handle_chat, stage1, allowedTransition, if_neg hdec,
          correctionBranch]
    | COMPLETED =>
      simp [handle_chat, stage1, allowedTransition, completedStage]
  · intro h
    refine ⟨(handle_chat_completed o msg t ints h).2.1,
      (handle_chat_completed o msg t ints h).2.2.1, ?_⟩
    intro turns
    exact runTurns_completed turns t ints h

/-- Witness for C2 at a concrete input: a completed thread gets the
fixed reply with no collaborator call, and a further turn leaves it
COMPLETED. -/
theorem C2_witness :
    (handle_chat oAllNone "hello again" tDone []).calls = [] ∧
    (handle_chat oAllNone "hello again" tDone []).reply = alreadyFinalizedMsg ∧
    (runTurns [(oAllNone, "one more")] tDone []).1.status = Status.COMPLETED := by
  have h := (C2_status_transitions oAllNone "hello again" tDone []).2 rfl
  exact ⟨h.1, h.2.1, h.2.2 [(oAllNone, "one more")]⟩

/-- C4 — In GATHERING, a schema that marks zero slots as required
short-circuits the turn: no collaborator call at all (so no extraction
and no guidance), no status change (so no confirmation transition), the
stored schema and slots are untouched, and the reply is the fixed
clarification request — regardless of the conversation so far. -/
theorem C4_degenerate_schema (o : Oracle) (msg : String) (t : Thread)
    (ints : List Intent) (sch : Schema)
    (hst : t.status = Status.GATHERING)
    (hsch : t.dynamic_schema = some sch)
    (hreq : sch.slots.any (fun sl => sl.required) = false) :
    (handle_chat o msg t ints).reply = clarificationMsg ∧
    (handle_chat o msg t ints).calls = [] ∧
    (handle_chat o msg t ints).thread.status = Status.GATHERING ∧
    (handle_chat o msg t ints).thread.dynamic_schema = some sch ∧
    (handle_chat o msg t ints).thread.filled_slots = t.filled_slots := by
  obtain ⟨tid, uid, msgs, ds, fs, st⟩ := t
  simp only at hst hsch
  subst hst
  subst hsch
  simp [handle_chat, stage1, gatheringEntry, gatheringBlock, gatheringTail,
    schemaGenStep, hreq, clarificationMsg]

/-- Witness for C4 at a concrete input: the all-optional schema yields
the fixed clarification and no calls. -/
theorem C4_witness :
    (handle_chat oAllNone "tell you later" tGatherOptional []).reply =
      clarificationMsg ∧
    (handle_chat oAllNone "tell you later" tGatherOptional []).calls = [] ∧
    (handle_chat oAllNone "tell you later" tGatherOptional []).thread.status =
      Status.GATHERING ∧
    (handle_chat oAllNone "tell you later" tGatherOptional []).thread.dynamic_schema =
      some schemaOptional ∧
    (handle_chat oAllNone "tell you later" tGatherOptional []).thread.filled_slots =
      tGatherOptional.filled_slots :=
  C4_degenerate_schema oAllNone "tell you later" tGatherOptional [] schemaOptional
    rfl rfl (by decide)

/-- C3 — While a thread is AWAITING_CONFIRMATION, any
confirmation-analysis outcome other than the exact string `CONFIRMED`
(including a gateway failure) takes the CORRECTION branch: the persisted
dynamic schema becomes `none`, the filled slots become empty, and the
status returns to GATHERING. -/
theorem C3_nonconfirmed_is_correction (o : Oracle) (msg : String) (t : Thread)
    (ints : List Intent)
    (hst : t.status = Status.AWAITING_CONFIRMATION)
    (hdec : o.analysisResponse ≠ some "CONFIRMED") :
    (handle_chat o msg t ints).thread.dynamic_schema = none ∧
    (handle_chat o msg t ints).thread.filled_slots = [] ∧
    (handle_chat o msg t ints).thread.status = Status.GATHERING := by
  obtain ⟨tid, uid, msgs, ds, fs, st⟩ := t
  simp only at hst
  subst hst
  simp [handle_chat, stage1, correctionBranch, if_neg hdec]

/-- Witness for C3 at a concrete input: the analysis response
`"looks wrong"` is not `CONFIRMED`, so the thread is reset. -/
theorem C3_witness :
    (handle_chat { oAllNone with analysisResponse := some "looks wrong" }
        "no, wrong city" tAwait []).thread.dynamic_schema = none ∧
    (handle_chat { oAllNone with analysisResponse := some "looks wrong" }
        "no, wrong city" tAwait []).thread.filled_slots = [] ∧
    (handle_chat { oAllNone with analysisResponse := some "looks wrong" }
        "no, wrong city" tAwait []).thread.status = Status.GATHERING :=
  C3_nonconfirmed_is_correction _ _ _ _ rfl (by decide)

/-- C10 — A gateway failure (no content) during the
confirmation-analysis call while AWAITING_CONFIRMATION takes the
CORRECTION branch: schema cleared to `none`, filled slots cleared,
status back to GATHERING, and the reply is the interim correction
acknowledgement — all gathered slot data is discarded. -/
theorem C10_analysis_failure_resets (o : Oracle) (msg : String) (t : Thread)
    (ints : List Intent)
    (hst : t.status = Status.AWAITING_CONFIRMATION)
    (hfail : o.analysisResponse = none) :
    (handle_chat o msg t ints).thread.dynamic_schema = none ∧
    (handle_chat o msg t ints).thread.filled_slots = [] ∧
    (handle_chat o msg t ints).thread.status = Status.GATHERING ∧
    (handle_chat o msg t ints).reply = correctionAckMsg := by
  obtain ⟨tid, uid, msgs, ds, fs, st⟩ := t
  simp only at hst
  subst hst
  have hdec : o.analysisResponse ≠ some "CONFIRMED" := by
    rw [hfail]; exact fun h => Option.noConfusion h
  simp [handle_chat, stage1, correctionBranch, if_neg hdec]
  decide

/-- Witness for C10 at a concrete input: every collaborator call fails
while `tAwait` awaits confirmation; the thread is reset and the reply is
the correction acknowledgement. -/
theorem C10_witness :
    (handle_chat oAllNone "anything" tAwait []).thread.dynamic_schema = none ∧
    (handle_chat oAllNone "anything" tAwait []).thread.filled_slots = [] ∧
    (handle_chat oAllNone "anything" tAwait []).thread.status = Status.GATHERING ∧
    (handle_chat oAllNone "anything" tAwait []).reply = correctionAckMsg :=
  C10_analysis_failure_resets _ _ _ _ rfl rfl

/-- C1 — The specified same-turn fall-through after a CORRECTION
does NOT happen in the code.  At a concrete AWAITING_CONFIRMATION
thread whose message is analysed as `CORRECTION`, with every
collaborator a GATHERING pass would need available (`oCorrectionReady`),
the turn still replies only with the interim acknowledgement, issues no
collaborator call beyond the analysis (so the correction message is not
reprocessed), although the reset itself (status back to GATHERING,
schema cleared) does happen.  The guard at app.py line 334 tests the
local `thread_status` variable, which still holds
`"AWAITING_CONFIRMATION"` after the reset, so the GATHERING block is
skipped — contradicting the spec and the comment in the code itself at
line 333. -/
theorem C1_no_fallthrough_after_correction :
    (handle_chat oCorrectionReady "no, wrong city" tAwait []).reply =
      correctionAckMsg ∧
    (handle_chat oCorrectionReady "no, wrong city" tAwait []).calls =
      [CallKind.analysisCall] ∧
    (handle_chat oCorrectionReady "no, wrong city" tAwait []).thread.status =
      Status.GATHERING ∧
    (handle_chat oCorrectionReady "no, wrong city" tAwait []).thread.dynamic_schema =
      none := by
  decide

/-- If the input of `schemaGenStep` already carries a schema, the step is the
identity (app.py line 335: `if not dynamic_schema`). -/
theorem schemaGenStep_some (o : Oracle) (s : Stage) (sch : Schema)
    (h : s.dyn = some sch) : schemaGenStep o s = s := by
  obtain ⟨ai, dyn, dbS, dbSl, dbSt, its, em, cs, lg⟩ := s
  simp only at h
  subst h
  rfl

/-- A string containing the non-empty marker `ALL_SLOTS_FILLED` is
itself non-empty. -/
theorem marker_string_ne_empty (g : String)
    (hm : strContains g "ALL_SLOTS_FILLED" = true) : (g != "") = true := by
  cases g with
  | mk l =>
    cases l with
    | nil =>
      rw [show strContains (String.mk []) "ALL_SLOTS_FILLED" = false from rfl]
        at hm
      exact absurd hm (by decide)
    | cons c cs =>
      have hne : String.mk (c :: cs) ≠ "" := by
        intro h
        have hdata := congrArg String.data h
        simp at hdata
      simp [bne_iff_ne, hne]

/-- The guidance step on a marker-bearing response: status advances to
AWAITING_CONFIRMATION and the turn-local reply becomes the
confirmation-summary output (empty on failure). -/
theorem guidanceStep_marker (o : Oracle) (s : Stage) (g : String)
    (hg : o.guidanceResponse = some g)
    (hm : strContains g "ALL_SLOTS_FILLED" = true) :
    (guidanceStep o s).dbStatus = Status.AWAITING_CONFIRMATION ∧
    (guidanceStep o s).ai_response = (o.confirmationResponse).getD "" := by
  have hne := marker_string_ne_empty g hm
  simp [guidanceStep, hg, hne, hm]

/-- The guidance step on a response without the marker: status is
unchanged and the turn-local reply is the guidance response itself. -/
theorem guidanceStep_no_marker (o : Oracle) (s : Stage) (g : String)
    (hg : o.guidanceResponse = some g)
    (hm : strContains g "ALL_SLOTS_FILLED" = false) :
    (guidanceStep o s).dbStatus = s.dbStatus ∧
    (guidanceStep o s).ai_response = g := by
  simp [guidanceStep, hg, hm]

/-- C5 counterexample — The asserted reply, namely the output
of the confirmation-summary prompt, is wrong when that call
fails: at a concrete GATHERING thread with a required slot, guidance
returning exactly `ALL_SLOTS_FILLED` and the confirmation-summary call
returning no content, the reply is the generic apology, not the
confirmation-summary output. -/
theorem C5_counterexample :
    ¬ (some (handle_chat oMarkerNoSummary "the city is paris" tGather []).reply =
        oMarkerNoSummary.confirmationResponse) := by
  decide

/-- C5 amended — In GATHERING with a schema having at least one
required slot and a guidance response `g`: if `g` contains
`ALL_SLOTS_FILLED` as a substring, the status is set to
AWAITING_CONFIRMATION and the reply is the confirmation-summary output
when that call returns non-empty text, and the fallback apology when it
fails or returns empty text; otherwise the status stays GATHERING and
the reply is `g` itself when non-empty, and the fallback apology when
`g` is empty. -/
theorem C5_guidance_marker_amended (o : Oracle) (msg : String) (t : Thread)
    (ints : List Intent) (sch : Schema) (g : String)
    (hst : t.status = Status.GATHERING)
    (hsch : t.dynamic_schema = some sch)
    (hreq : sch.slots.any (fun sl => sl.required) = true)
    (hg : o.guidanceResponse = some g) :
    (strContains g "ALL_SLOTS_FILLED" = true →
      (handle_chat o msg t ints).thread.status = Status.AWAITING_CONFIRMATION ∧
      (handle_chat o msg t ints).reply =
        (match o.confirmationResponse with
         | some c => if c = "" then apologyMsg else c
         | none => apologyMsg)) ∧
    (strContains g "ALL_SLOTS_FILLED" = false →
      (handle_chat o msg t ints).thread.status = Status.GATHERING ∧
      (handle_chat o msg t ints).reply = (if g = "" then apologyMsg else g)) := by
  obtain ⟨tid, uid, msgs, ds, fs, st⟩ := t
  simp only at hst hsch
  subst hst
  subst hsch
  simp only [handle_chat, stage1, gatheringBlock]
  rw [schemaGenStep_some o _ sch rfl]
  simp only [gatheringTail, gatheringEntry, hreq, if_true]
  constructor
  · intro hm
    have hgs := guidanceStep_marker o
      (extractionStep o (gatheringEntry ⟨tid, uid, msgs, some sch, fs,
        Status.GATHERING⟩ ints)) g hg hm
    rw [show (gatheringEntry ⟨tid, uid, msgs, some sch, fs, Status.GATHERING⟩
      ints) = ⟨"", some sch, some sch, fs, Status.GATHERING, ints, [], [],
      false⟩ from rfl] at hgs
    refine ⟨by simp [hgs.1], ?_⟩
    rw [hgs.2]
    cases hc : o.confirmationResponse with
    | none => simp
    | some c =>
      by_cases hce : c = "" <;> simp [hce]
  · intro hm
    have hgs := guidanceStep_no_marker o
      (extractionStep o (gatheringEntry ⟨tid, uid, msgs, some sch, fs,
        Status.GATHERING⟩ ints)) g hg hm
    rw [show (gatheringEntry ⟨tid, uid, msgs, some sch, fs, Status.GATHERING⟩
      ints) = ⟨"", some sch, some sch, fs, Status.GATHERING, ints, [], [],
      false⟩ from rfl] at hgs
    have hext := (extractionStep_fields o
      (⟨"", some sch, some sch, fs, Status.GATHERING, ints, [], [], false⟩ :
        Stage)).1
    refine ⟨by simp [hgs.1, hext], ?_⟩
    rw [hgs.2]

/-- Witness for C5 at a concrete input: the marker inside surrounding
text transitions `tGather` to AWAITING_CONFIRMATION and the successful
confirmation summary is the reply. -/
theorem C5_witness :
    (handle_chat oMarkerSummary "budget is 500" tGather []).thread.status =
      Status.AWAITING_CONFIRMATION ∧
    (handle_chat oMarkerSummary "budget is 500" tGather []).reply =
      "Here is what I have. Is that correct?" := by
  have h := (C5_guidance_marker_amended oMarkerSummary "budget is 500" tGather
    [] schemaCity "Great news: ALL_SLOTS_FILLED indeed." rfl rfl (by decide)
    rfl).1 (by decide)
  exact ⟨h.1, h.2⟩

/-- On the fresh-insert path, the CONFIRMED branch appends exactly the
new intent, broadcasts it, makes the analysis and embedding calls,
replies with the success message, sets COMPLETED, and logs iff the
embedding failed. -/
theorem confirmedBranch_new (o : Oracle) (t : Thread) (ints : List Intent)
    (hnew : (ints.find? fun it => it.threadId == t.threadId) = none) :
    confirmedBranch o t ints =
      { ai_response := successMsg
        dyn := t.dynamic_schema
        dbSchema := t.dynamic_schema
        dbSlots := t.filled_slots
        dbStatus := Status.COMPLETED
        intents := ints ++ [newIntentOf o t]
        emitted := [newIntentOf o t]
        calls := [CallKind.analysisCall, CallKind.embedCall]
        logged := (o.embeddingResponse).isNone } := by
  simp [confirmedBranch, hnew]

/-- On the skip path (an intent for this thread already exists), the
CONFIRMED branch inserts nothing, broadcasts nothing, makes no
embedding call, still replies with the success message, and still sets
COMPLETED. -/
theorem confirmedBranch_skip (o : Oracle) (t : Thread) (ints : List Intent)
    (hex : (ints.find? fun it => it.threadId == t.threadId).isSome) :
    confirmedBranch o t ints =
      { ai_response := successMsg
        dyn := t.dynamic_schema
        dbSchema := t.dynamic_schema
        dbSlots := t.filled_slots
        dbStatus := Status.COMPLETED
        intents := ints
        emitted := []
        calls := [CallKind.analysisCall]
        logged := false } := by
  rcases Option.isSome_iff_exists.mp hex with ⟨x, hx⟩
  simp [confirmedBranch, hx]

/-- Counting intents distributes over list append. -/
theorem countIntents_append (tid : String) (a b : List Intent) :
    countIntents tid (a ++ b) = countIntents tid a + countIntents tid b := by
  simp [countIntents, List.filter_append]

/-- A one-element intents list counts at most one record per thread. -/
theorem countIntents_single_le (tid : String) (n : Intent) :
    countIntents tid [n] ≤ 1 := by
  simp only [countIntents, List.filter_cons, List.filter_nil]
  split <;> simp

/-- If no stored intent matches a thread id, its count is zero. -/
theorem countIntents_eq_zero (tid : String) (ints : List Intent)
    (h : ∀ x ∈ ints, ¬ (x.threadId == tid) = true) :
    countIntents tid ints = 0 := by
  unfold countIntents
  rw [List.length_eq_zero, List.filter_eq_nil_iff]
  exact h

/-- C6 counterexample — The transform asserted by the claim, namely "capitalize the first
letter" (rest unchanged) disagrees with the code at the slot value
`"NEW york"`: the `str.capitalize()` call in the code persists `"New york"`
(lowercasing the tail), not `capitalizeFirstLetterSpec "NEW york" =
"NEW york"`. -/
theorem C6_counterexample :
    ¬ ((handle_chat oConfirm "yes" tMixedCase []).intents.map Intent.filledSlots =
      [[("city", SlotValue.str (capitalizeFirstLetterSpec "NEW york"))]]) := by
  decide

/-- C6 amended — On CONFIRMED, before finalization, every
string-valued filled slot is sentence-cased by the Python
`str.capitalize()` method — first character uppercased AND the remaining
characters lowercased — while non-string slot values are left
unchanged; in particular `"paris"` is persisted in the Intent as
`"Paris"`. -/
theorem C6_capitalize_amended (o : Oracle) (msg : String) (t : Thread)
    (ints : List Intent)
    (hst : t.status = Status.AWAITING_CONFIRMATION)
    (hdec : o.analysisResponse = some "CONFIRMED")
    (hnew : (ints.find? fun it => it.threadId == t.threadId) = none) :
    (handle_chat o msg t ints).intents =
      ints ++ [{ threadId := t.threadId
                 userId := t.userId
                 schema := t.dynamic_schema
                 filledSlots := t.filled_slots.map (fun kv =>
                   match kv.2 with
                   | SlotValue.str s => (kv.1, SlotValue.str (pyCapitalize s))
                   | _ => kv)
                 vector_embedding := o.embeddingResponse }] ∧
    pyCapitalize "paris" = "Paris" := by
  obtain ⟨tid, uid, msgs, ds, fs, st⟩ := t
  simp only at hst hnew
  subst hst
  refine ⟨?_, by decide⟩
  simp only [handle_chat, stage1, hdec]
  rw [confirmedBranch_new o _ ints hnew]
  simp [newIntentOf, capitalizeSlots]

/-- Witness for C6 at a concrete input: confirming `tParis` persists
the slot value `"Paris"`. -/
theorem C6_witness :
    (handle_chat oConfirmEmbed "yes" tParis []).intents =
      [] ++ [{ threadId := tParis.threadId
               userId := tParis.userId
               schema := tParis.dynamic_schema
               filledSlots := tParis.filled_slots.map (fun kv =>
                 match kv.2 with
                 | SlotValue.str s => (kv.1, SlotValue.str (pyCapitalize s))
                 | _ => kv)
               vector_embedding := oConfirmEmbed.embeddingResponse }] ∧
    pyCapitalize "paris" = "Paris" ∧
    (handle_chat oConfirmEmbed "yes" tParis []).intents.map Intent.filledSlots =
      [[("city", SlotValue.str "Paris")]] := by
  have h := C6_capitalize_amended oConfirmEmbed "yes" tParis [] rfl rfl rfl
  exact ⟨h.1, h.2, by decide⟩

/-- C7 — Finalization is idempotent per `threadId`: every confirmed
turn leaves at most `max(previous count, 1)` intents for every thread
id, and when an intent for this thread already exists the turn inserts
nothing, broadcasts nothing, makes no embedding call, yet still replies
with the fixed success message and sets the status to COMPLETED. -/
theorem C7_finalize_idempotent (o : Oracle) (msg : String) (t : Thread)
    (ints : List Intent)
    (hst : t.status = Status.AWAITING_CONFIRMATION)
    (hdec : o.analysisResponse = some "CONFIRMED") :
    (∀ tid, countIntents tid (handle_chat o msg t ints).intents ≤
      max (countIntents tid ints) 1) ∧
    ((ints.find? fun it => it.threadId == t.threadId).isSome →
      (handle_chat o msg t ints).intents = ints ∧
      (handle_chat o msg t ints).emitted = [] ∧
      CallKind.embedCall ∉ (handle_chat o msg t ints).calls ∧
      (handle_chat o msg t ints).reply = successMsg ∧
      (handle_chat o msg t ints).thread.status = Status.COMPLETED) := by
  obtain ⟨tid0, uid, msgs, ds, fs, st⟩ := t
  simp only at hst
  subst hst
  constructor
  · intro tid
    cases hfind : (ints.find? fun it => it.threadId == tid0) with
    | none =>
      have hred : (handle_chat o msg ⟨tid0, uid, msgs, ds, fs,
          Status.AWAITING_CONFIRMATION⟩ ints).intents =
          ints ++ [newIntentOf o ⟨tid0, uid, msgs, ds, fs,
            Status.AWAITING_CONFIRMATION⟩] := by
        simp only [handle_chat, stage1, hdec]
        rw [confirmedBranch_new o _ ints hfind]
        rfl
      rw [hred, countIntents_append]
      by_cases htid : tid0 = tid
      · subst htid
        have hz : countIntents tid0 ints = 0 := by
          apply countIntents_eq_zero
          intro x hx
          exact List.find?_eq_none.mp hfind x hx
        rw [hz]
        simpa using countIntents_single_le tid0 _
      · have hz1 : countIntents tid [newIntentOf o ⟨tid0, uid, msgs, ds, fs,
            Status.AWAITING_CONFIRMATION⟩] = 0 := by
          apply countIntents_eq_zero
          intro x hx
          simp only [List.mem_singleton] at hx
          subst hx
          simpa [newIntentOf] using htid
        rw [hz1]
        exact le_trans (le_of_eq (Nat.add_zero _)) (le_max_left _ _)
    | some x =>
      have hred : (handle_chat o msg ⟨tid0, uid, msgs, ds, fs,
          Status.AWAITING_CONFIRMATION⟩ ints).intents = ints := by
        simp only [handle_chat, stage1, hdec]
        rw [confirmedBranch_skip o _ ints (Option.isSome_iff_exists.mpr ⟨x, hfind⟩)]
        rfl
      rw [hred]
      exact le_max_left _ _
  · intro hex
    have hI : (handle_chat o msg ⟨tid0, uid, msgs, ds, fs,
        Status.AWAITING_CONFIRMATION⟩ ints).intents = ints := by
      simp only [handle_chat, stage1, hdec]
      rw [confirmedBranch_skip o _ ints hex]
      rfl
    have hE : (handle_chat o msg ⟨tid0, uid, msgs, ds, fs,
        Status.AWAITING_CONFIRMATION⟩ ints).emitted = [] := by
      simp only [handle_chat, stage1, hdec]
      rw [confirmedBranch_skip o _ ints hex]
      rfl
    have hC : (handle_chat o msg ⟨tid0, uid, msgs, ds, fs,
        Status.AWAITING_CONFIRMATION⟩ ints).calls = [CallKind.analysisCall] := by
      simp only [handle_chat, stage1, hdec]
      rw [confirmedBranch_skip o _ ints hex]
      rfl
    have hR : (handle_chat o msg ⟨tid0, uid, msgs, ds, fs,
        Status.AWAITING_CONFIRMATION⟩ ints).reply = successMsg := by
      simp only [handle_chat, stage1, hdec]
      rw [confirmedBranch_skip o _ ints hex]
      rfl
    have hS : (handle_chat o msg ⟨tid0, uid, msgs, ds, fs,
        Status.AWAITING_CONFIRMATION⟩ ints).thread.status = Status.COMPLETED := by
      simp only [handle_chat, stage1, hdec]
      rw [confirmedBranch_skip o _ ints hex]
      rfl
    exact ⟨hI, hE, by rw [hC]; decide, hR, hS⟩

/-- Witness for C7 at a concrete input: a second confirmation for
thread `t1`, which already has a stored intent, inserts nothing and
still succeeds. -/
theorem C7_witness :
    countIntents "t1" (handle_chat oConfirm "yes" tAwait [intentExisting]).intents ≤
      max (countIntents "t1" [intentExisting]) 1 ∧
    (handle_chat oConfirm "yes" tAwait [intentExisting]).intents =
      [intentExisting] ∧
    (handle_chat oConfirm "yes" tAwait [intentExisting]).emitted = [] ∧
    CallKind.embedCall ∉ (handle_chat oConfirm "yes" tAwait [intentExisting]).calls ∧
    (handle_chat oConfirm "yes" tAwait [intentExisting]).reply = successMsg ∧
    (handle_chat oConfirm "yes" tAwait [intentExisting]).thread.status =
      Status.COMPLETED := by
  have h := C7_finalize_idempotent oConfirm "yes" tAwait [intentExisting]
    rfl rfl
  have h2 := h.2 (by decide)
  exact ⟨h.1 "t1", h2.1, h2.2.1, h2.2.2.1, h2.2.2.2.1, h2.2.2.2.2⟩

/-- C8 — If the embedding call fails during finalization, the
finalize still succeeds: the failure is logged, the intent is persisted
with a null embedding vector, the broadcast still happens, the reply is
still the success message, and the status becomes COMPLETED. -/
theorem C8_embedding_failure_tolerated (o : Oracle) (msg : String)
    (t : Thread) (ints : List Intent)
    (hst : t.status = Status.AWAITING_CONFIRMATION)
    (hdec : o.analysisResponse = some "CONFIRMED")
    (hnew : (ints.find? fun it => it.threadId == t.threadId) = none)
    (hemb : o.embeddingResponse = none) :
    (handle_chat o msg t ints).intents = ints ++ [newIntentOf o t] ∧
    (newIntentOf o t).vector_embedding = none ∧
    (handle_chat o msg t ints).emitted = [newIntentOf o t] ∧
    (handle_chat o msg t ints).logged = true ∧
    (handle_chat o msg t ints).reply = successMsg ∧
    (handle_chat o msg t ints).thread.status = Status.COMPLETED := by
  obtain ⟨tid, uid, msgs, ds, fs, st⟩ := t
  simp only at hst hnew
  subst hst
  simp only [handle_chat, stage1, hdec]
  rw [confirmedBranch_new o _ ints hnew]
  refine ⟨rfl, by simp [newIntentOf, hemb], rfl, by simp [hemb], ?_, rfl⟩
  simp [successMsg]

/-- Witness for C8 at a concrete input: confirming `tAwait` with a
failing embedding call still inserts, broadcasts, logs and succeeds. -/
theorem C8_witness :
    (handle_chat oConfirm "yes" tAwait []).intents =
      [] ++ [newIntentOf oConfirm tAwait] ∧
    (newIntentOf oConfirm tAwait).vector_embedding = none ∧
    (handle_chat oConfirm "yes" tAwait []).emitted =
      [newIntentOf oConfirm tAwait] ∧
    (handle_chat oConfirm "yes" tAwait []).logged = true ∧
    (handle_chat oConfirm "yes" tAwait []).reply = successMsg ∧
    (handle_chat oConfirm "yes" tAwait []).thread.status = Status.COMPLETED :=
  C8_embedding_failure_tolerated oConfirm "yes" tAwait [] rfl rfl rfl rfl

/-- The final reply substitution (app.py lines 379-380) never yields an
empty reply. -/
theorem reply_ne_empty (s : Stage) :
    (if s.ai_response = "" then apologyMsg else s.ai_response) ≠ "" := by
  by_cases h : s.ai_response = "" <;> simp [h, apologyMsg]

/-- C9 — Every turn with valid input appends a non-empty assistant
reply to the message list of the thread and persists the thread, unconditionally;
in the GATHERING branch where every collaborator call made (schema
inference and the schemaless fallback completion) failed, the reply is
the generic "trouble processing" apology. -/
theorem C9_always_replies (o : Oracle) (msg : String) (t : Thread)
    (ints : List Intent) :
    (handle_chat o msg t ints).reply ≠ "" ∧
    (handle_chat o msg t ints).thread.messages =
      (t.messages ++ [{ role := "user", content := msg }]) ++
        [{ role := "model", content := (handle_chat o msg t ints).reply }] ∧
    (t.status = Status.GATHERING → t.dynamic_schema = none →
      o.schemaGenResponse = none → o.fallbackResponse = none →
      (handle_chat o msg t ints).reply = apologyMsg) := by
  refine ⟨?_, rfl, ?_⟩
  · exact reply_ne_empty
      (if t.status = Status.GATHERING then gatheringBlock o (stage1 o t ints)
       else stage1 o t ints)
  · intro hst hds hgen hfb
    obtain ⟨tid, uid, msgs, ds, fs, st⟩ := t
    simp only at hst hds
    subst hst
    subst hds
    simp [handle_chat, stage1, gatheringEntry, gatheringBlock, gatheringTail,
      schemaGenStep, hgen, hfb, apologyMsg]

/-- Witness for C9 at a concrete input: with every collaborator failing
on a fresh GATHERING thread, the reply is the apology and it is
appended and persisted. -/
theorem C9_witness :
    (handle_chat oAllNone "hi" tFresh []).reply ≠ "" ∧
    (handle_chat oAllNone "hi" tFresh []).thread.messages =
      (tFresh.messages ++ [{ role := "user", content := "hi" }]) ++
        [{ role := "model", content := (handle_chat oAllNone "hi" tFresh []).reply }] ∧
    (handle_chat oAllNone "hi" tFresh []).reply = apologyMsg := by
  have h := C9_always_replies oAllNone "hi" tFresh []
  exact ⟨h.1, h.2.1, h.2.2 rfl rfl rfl rfl⟩

end ZonyApp
